import Mathlib

/-!
Verification development for the resume-critic analysis engine.

Part 1 embeds `src/app/services/ai_critic.py` (the analysis engine present in
the source tree): content analysis, dynamic scoring, and feedback generation.
Python strings are modelled as `List Char` / `String`, Python ints as `Int`
(`Nat` for counts).  The two impure ingredients of `_dynamic_mock_analysis`
are made explicit parameters:
  * `r`   — the value of `random.randint(-5, 5)` drawn from the RNG that the
            code seeds with `int(time.time()) + hash(resume_text.lower())`;
  * `tsStrength` / `tsRec` — the two `datetime.now().strftime(...)` results
            interpolated into a strength and a recommendation.
Part 2 (further below) models, from the spec, the canonical orchestrator /
detector that `src/app/main.py` calls but that is absent from the tree.
-/

/-- ASCII lower-casing of a character, as Python `str.lower()` acts on the
ASCII texts handled here. -/
def lowerChar (c : Char) : Char := c.toLower

/-- Python `\w` (word character): letters, digits, underscore. -/
def isWordChar (c : Char) : Bool := c.isAlpha || c.isDigit || c == '_'

/-- Python whitespace, the class split on by `str.split()` and `\s`. -/
def pyWhitespace (c : Char) : Bool :=
  c == ' ' || c == '\t' || c == '\n' || c == '\r' || c == Char.ofNat 11 || c == Char.ofNat 12

/-- Does `needle` occur at the head of `hay`? -/
def listPrefixEq : List Char → List Char → Bool
  | [], _ => true
  | _ :: _, [] => false
  | a :: as, b :: bs => a == b && listPrefixEq as bs

/-- Python substring containment `needle in hay` (used by line 89
`if keyword in text_lower` and the section/contact checks). -/
def containsSub (needle : List Char) : List Char → Bool
  | [] => listPrefixEq needle []
  | s@(_ :: t) => listPrefixEq needle s || containsSub needle t

/-- `len(resume_text.split())`: number of maximal non-whitespace runs. -/
def countWords : List Char → Bool → Nat
  | [], _ => 0
  | c :: t, inWord =>
    if pyWhitespace c then countWords t false
    else (if inWord then 0 else 1) + countWords t true

/-- `len([line.strip() for line in text.split('\n') if line.strip()])`:
number of newline-separated segments containing a non-whitespace char.
The flag records whether the current segment was already counted. -/
def countLines : List Char → Bool → Nat
  | [], _ => 0
  | c :: t, seen =>
    if c == '\n' then countLines t false
    else if !pyWhitespace c && !seen then 1 + countLines t true
    else countLines t seen

/-- Python `str.title()` applied to the found keywords (line 90
`keyword.title()`): the first letter of each alphabetic run is upper-cased,
the following letters lower-cased. -/
def pyTitleAux : List Char → Bool → List Char
  | [], _ => []
  | c :: t, prevAlpha =>
    (if c.isAlpha then (if prevAlpha then c.toLower else c.toUpper) else c)
      :: pyTitleAux t c.isAlpha

def pyTitle (s : String) : String := String.mk (pyTitleAux s.data false)

/-- The `self.tech_keywords` table, flattened in the Python dict / list
iteration order used by the loop at lines 87-90. -/
def techKeywordsAll : List String :=
  ["python", "javascript", "java", "c++", "c#", "php", "ruby", "go", "rust", "swift",
   "html", "css", "react", "angular", "vue", "node", "express", "django", "flask",
   "sql", "mysql", "postgresql", "mongodb", "redis", "sqlite",
   "git", "docker", "kubernetes", "aws", "azure", "gcp", "jenkins", "terraform",
   "api", "rest", "graphql", "microservices", "devops", "ci/cd", "agile", "scrum"]

/-! ### The three `re` searches of `_analyze_content` -/

/-- `[A-Za-z0-9._%+-]` (local part of the email regex at line 80). -/
def emailLocalChar (c : Char) : Bool :=
  c.isAlpha || c.isDigit || c == '.' || c == '_' || c == '%' || c == '+' || c == '-'

/-- `[A-Za-z0-9.-]` (domain part of the email regex). -/
def emailDomainChar (c : Char) : Bool :=
  c.isAlpha || c.isDigit || c == '.' || c == '-'

/-- `[A-Z|a-z]` (top-level-domain class of the email regex; note the literal
`|` inside the character class, exactly as written in the source). -/
def emailTldChar (c : Char) : Bool := c.isAlpha || c == '|'

def optIsWord : Option Char → Bool
  | some c => isWordChar c
  | none => false

/-- After the `.`: `[A-Z|a-z]{2,}\b` matches some prefix of `t`. -/
def emailTldAt (t : List Char) : Bool :=
  (List.range (t.length + 1)).any fun tlen =>
    decide (2 ≤ tlen) && decide ((t.take tlen).length = tlen)
      && (t.take tlen).all emailTldChar
      && (optIsWord (t.get? (tlen - 1)) != optIsWord (t.get? tlen))

/-- After the `@`: `[A-Za-z0-9.-]+\.[A-Z|a-z]{2,}\b` matches some prefix. -/
def emailTailAt (t : List Char) : Bool :=
  (List.range (t.length + 1)).any fun dlen =>
    decide (1 ≤ dlen) && decide ((t.take dlen).length = dlen)
      && (t.take dlen).all emailDomainChar
      && (t.get? dlen == some '.')
      && emailTldAt (t.drop (dlen + 1))

/-- `\b[A-Za-z0-9._%+-]+@...` matches at the head of `s`, where `prevIsWord`
says whether the character just before `s` is a word character (`\b` holds
iff exactly one side of the position is a word character). -/
def emailAt (prevIsWord : Bool) (s : List Char) : Bool :=
  (List.range (s.length + 1)).any fun llen =>
    decide (1 ≤ llen) && decide ((s.take llen).length = llen)
      && (s.take llen).all emailLocalChar
      && (s.get? llen == some '@')
      && (optIsWord s.head? != prevIsWord)
      && emailTailAt (s.drop (llen + 1))

def hasEmailFrom : Bool → List Char → Bool
  | _, [] => false
  | prev, s@(c :: t) => emailAt prev s || hasEmailFrom (isWordChar c) t

/-- `bool(re.search(r'\b[A-Za-z0-9._%+-]+@[A-Za-z0-9.-]+\.[A-Z|a-z]{2,}\b', resume_text))`. -/
def hasEmailSearch (s : List Char) : Bool := hasEmailFrom false s

/-- `[-.\s]` — the optional separator class of the phone regex at line 81. -/
def isSepChar (c : Char) : Bool := c == '-' || c == '.' || pyWhitespace c

/-- Both ways to resolve an optional (`?`) single-character item: consume it
if it is there, or skip it. -/
def optConsume (p : Char → Bool) (s : List Char) : List (List Char) :=
  match s with
  | [] => [[]]
  | c :: t => if p c then [t, c :: t] else [c :: t]

/-- Consume exactly `n` digits (`\d{n}`). -/
def consumeDigits : Nat → List Char → Option (List Char)
  | 0, s => some s
  | _ + 1, [] => none
  | n + 1, c :: t => if c.isDigit then consumeDigits n t else none

/-- `(\(?\d{3}\)?[-.\s]?\d{3}[-.\s]?\d{4})` matches at the head of `s`. -/
def phoneAt (s : List Char) : Bool :=
  (optConsume (fun c => c == '(') s).any fun s1 =>
    match consumeDigits 3 s1 with
    | none => false
    | some s2 =>
      (optConsume (fun c => c == ')') s2).any fun s3 =>
        (optConsume isSepChar s3).any fun s4 =>
          match consumeDigits 3 s4 with
          | none => false
          | some s5 =>
            (optConsume isSepChar s5).any fun s6 => (consumeDigits 4 s6).isSome

/-- `bool(re.search(r'(\(?\d{3}\)?[-.\s]?\d{3}[-.\s]?\d{4})', resume_text))`. -/
def hasPhoneSearch : List Char → Bool
  | [] => false
  | s@(_ :: t) => phoneAt s || hasPhoneSearch t

/-- Length of the maximal digit run at the head of `s`. -/
def digitRun : List Char → Nat
  | [] => 0
  | c :: t => if c.isDigit then 1 + digitRun t else 0

/-- The part of `s` the regex `.` can span: everything before the next
newline (Python `.` does not match `\n`). -/
def segNoNewline (s : List Char) : List Char := s.takeWhile (fun c => c != '\n')

def lastDigitIdxAux : List Char → Nat → Option Nat → Option Nat
  | [], _, acc => acc
  | c :: t, i, acc => lastDigitIdxAux t (i + 1) (if c.isDigit then some i else acc)

/-- `\d+` followed by the literal symbol `sym` matched at the head of `s`;
returns the match length.  (Only the maximal digit run can be followed by a
non-digit symbol, so no further backtracking arises.) -/
def matchNumSym (sym : Char) (s : List Char) : Option Nat :=
  let d := digitRun s
  if decide (1 ≤ d) && (s.get? d == some sym) then some (d + 1) else none

/-- `lit` then `.*\d+` (greedy) matched at the head of `s`: the match runs to
the last digit before the next newline, if any. -/
def matchLitNum (lit : List Char) (s : List Char) : Option Nat :=
  if listPrefixEq lit s then
    match lastDigitIdxAux (segNoNewline (s.drop lit.length)) 0 none with
    | none => none
    | some i => some (lit.length + i + 1)
  else none

/-- One position of
`re.findall(r'\d+%|\d+x|\d+\+|increased.*\d+|improved.*\d+|reduced.*\d+', text_lower)`:
the alternatives are tried in order, as the regex engine does. -/
def matchAchAt (s : List Char) : Option Nat :=
  (matchNumSym '%' s).orElse fun _ => (matchNumSym 'x' s).orElse fun _ =>
    (matchNumSym '+' s).orElse fun _ =>
      (matchLitNum ("increased").data s).orElse fun _ =>
        (matchLitNum ("improved").data s).orElse fun _ => matchLitNum ("reduced").data s

/-- `len(re.findall(...))` at line 108: non-overlapping matches, scanning
left to right and resuming after each match.  The fuel starts at the text
length; every step consumes at least one character. -/
def achCountAux : Nat → List Char → Nat
  | 0, _ => 0
  | _, [] => 0
  | fuel + 1, s@(_ :: t) =>
    match matchAchAt s with
    | some len => 1 + achCountAux fuel (s.drop len)
    | none => achCountAux fuel t

def achCount (s : List Char) : Nat := achCountAux s.length s

/-! ### `_analyze_content` -/

/-- The dict returned by `AICritic._analyze_content` (lines 111-127). -/
structure Signals where
  word_count : Nat
  line_count : Nat
  has_email : Bool
  has_phone : Bool
  has_linkedin : Bool
  has_github : Bool
  found_keywords : List String
  missing_keywords : List String
  keyword_density : String
  sections_found : List String
  achievements_with_numbers : Nat
  structure_feedback : String
  readability_feedback : String
  format_suggestions : List String
deriving DecidableEq

/-- `AICritic._get_format_suggestions` (lines 284-299). -/
def getFormatSuggestions (word_count : Nat) (sections : List String) (achievements : Nat) :
    List String :=
  (if 600 < word_count then ["Use bullet points to make content more scannable"] else [])
    ++ (if achievements = 0 then
          ["Use bullet points starting with action verbs (Developed, Implemented, Achieved)"]
        else [])
    ++ (if sections.length < 3 then ["Add clear section headers to improve organization"] else [])
    ++ ["Ensure consistent formatting throughout document"]

/-- The section detection of lines 100-105. -/
def sectionsFoundOf (lower : List Char) : List String :=
  (if ["experience", "work", "employment"].any (fun w => containsSub w.data lower)
   then ["Experience"] else [])
    ++ (if ["education", "degree", "university", "college"].any (fun w => containsSub w.data lower)
        then ["Education"] else [])
    ++ (if ["project", "projects"].any (fun w => containsSub w.data lower)
        then ["Projects"] else [])
    ++ (if ["skill", "skills", "technical"].any (fun w => containsSub w.data lower)
        then ["Skills"] else [])

/-- `AICritic._analyze_content` (lines 68-127).  Note that the returned
`found_keywords` / `missing_keywords` are the `[:8]` / `[:4]` truncations,
while `keyword_density` is computed from the untruncated keyword list,
exactly as in the source. -/
def analyzeContent (text : String) : Signals :=
  let cs := text.data
  let lower := cs.map lowerChar
  let wc := countWords cs false
  let found := (techKeywordsAll.filter (fun k => containsSub k.data lower)).map pyTitle
  let missing :=
    (if !containsSub ("git").data lower then ["Git"] else [])
      ++ (if !containsSub ("api").data lower then ["API"] else [])
      ++ (if !containsSub ("sql").data lower && !containsSub ("database").data lower
          then ["SQL"] else [])
      ++ (if !containsSub ("agile").data lower && !containsSub ("scrum").data lower
          then ["Agile"] else [])
  let secs := sectionsFoundOf lower
  let ach := achCount lower
  { word_count := wc
    line_count := countLines cs false
    has_email := hasEmailSearch cs
    has_phone := hasPhoneSearch cs
    has_linkedin := containsSub ("linkedin").data lower
    has_github := containsSub ("github").data lower
    found_keywords := found.take 8
    missing_keywords := missing.take 4
    keyword_density :=
      if 10 < found.length then "Excellent"
      else if 5 < found.length then "Good" else "Needs Improvement"
    sections_found := secs
    achievements_with_numbers := ach
    structure_feedback :=
      if secs ≠ [] then
        "Contains " ++ toString secs.length ++ " key sections: " ++ String.intercalate (", ") secs
      else "Basic structure detected"
    readability_feedback :=
      if 250 ≤ wc ∧ wc ≤ 600 then "Good length with " ++ toString wc ++ " words"
      else "Consider adjusting length (currently " ++ toString wc ++ " words)"
    format_suggestions := getFormatSuggestions wc secs ach }

/-! ### `_calculate_dynamic_score`

Each helper below is one mutation block of the Python function (lines
129-176); they are composed in the source's statement order, then the
`random.randint(-5, 5)` draw `r` is added and the result clamped by
`max(60, min(95, base_score))`. -/

def scoreWordCount (wc : Nat) (b : Int) : Int :=
  if 250 ≤ wc ∧ wc ≤ 600 then b + 5
  else if wc < 200 then b - 10
  else if 800 < wc then b - 5
  else b

def scoreEmail (e : Bool) (b : Int) : Int := if e then b + 5 else b

def scorePhone (p : Bool) (b : Int) : Int := if p then b + 5 else b

def scoreLinkedin (l : Bool) (b : Int) : Int := if l then b + 3 else b

def scoreGithub (g : Bool) (b : Int) : Int := if g then b + 3 else b

def scoreKeywords (k : Nat) (b : Int) : Int :=
  if 8 < k then b + 10
  else if 4 < k then b + 5
  else if k < 2 then b - 5
  else b

def scoreSections (n : Nat) (b : Int) : Int :=
  if 4 ≤ n then b + 8
  else if 3 ≤ n then b + 5
  else if n < 2 then b - 10
  else b

def scoreAchievements (n : Nat) (b : Int) : Int :=
  if 2 < n then b + 8
  else if 0 < n then b + 4
  else b - 5

/-- `AICritic._calculate_dynamic_score` (lines 129-176); `r` is the
`random.randint(-5, 5)` draw of line 174. -/
def calculateDynamicScore (a : Signals) (r : Int) : Int :=
  max 60 (min 95
    (scoreAchievements a.achievements_with_numbers
      (scoreSections a.sections_found.length
        (scoreKeywords a.found_keywords.length
          (scoreGithub a.has_github
            (scoreLinkedin a.has_linkedin
              (scorePhone a.has_phone
                (scoreEmail a.has_email
                  (scoreWordCount a.word_count 70))))))) + r))

/-! ### The feedback generators -/

/-- `generic_strengths` (lines 208-213). -/
def genericStrengths : List String :=
  ["Professional presentation and clear formatting",
   "Demonstrates relevant experience in the field",
   "Good use of industry-appropriate terminology",
   "Shows progression and growth in career/education"]

/-- The `while len(strengths) < 4` padding loop of lines 215-216.  The loop
body appends one element per iteration, so four iterations of fuel always
reach the guard. -/
def padStrengths : Nat → List String → List String
  | 0, l => l
  | n + 1, l =>
    if l.length < 4 then padStrengths n (l ++ [genericStrengths.getD (l.length % 4) ""])
    else l

/-- `AICritic._generate_strengths` (lines 178-218); `ts` is the
`datetime.now().strftime('%Y-%m-%d at %H:%M')` string of line 205. -/
def generateStrengths (a : Signals) (ts : String) : List String :=
  let l :=
    (if 250 ≤ a.word_count then
       ["Well-detailed resume with " ++ toString a.word_count
          ++ " words showing comprehensive experience"]
     else [])
      ++ (if a.has_email ∧ a.has_phone then
            ["Complete contact information makes you easy to reach"] else [])
      ++ (if 5 < a.found_keywords.length then
            ["Strong technical vocabulary with " ++ toString a.found_keywords.length
               ++ " relevant keywords: " ++ String.intercalate (", ") (a.found_keywords.take 3)]
          else [])
      ++ (if 3 ≤ a.sections_found.length then
            ["Well-organized structure with clear sections: "
               ++ String.intercalate (", ") a.sections_found]
          else [])
      ++ (if 0 < a.achievements_with_numbers then
            ["Includes " ++ toString a.achievements_with_numbers
               ++ " quantified achievement(s) - great for demonstrating impact"]
          else [])
      ++ (if a.has_github then
            ["GitHub profile included - shows commitment to code sharing and collaboration"]
          else [])
      ++ ["Analysis completed on " ++ ts ++ " - fresh perspective provided"]
  (padStrengths 4 l).take 4

/-- `AICritic._generate_improvements` (lines 220-254). -/
def generateImprovements (a : Signals) : List String :=
  let l :=
    (if a.word_count < 250 then
       ["Expand content - current " ++ toString a.word_count
          ++ " words is quite brief for a comprehensive resume"]
     else if 700 < a.word_count then
       ["Consider condensing - " ++ toString a.word_count
          ++ " words may be too lengthy for initial screening"]
     else [])
      ++ (if !a.has_email then ["Add a professional email address to contact information"]
          else [])
      ++ (if !a.has_phone then ["Include a phone number for direct contact"] else [])
      ++ (if a.found_keywords.length < 5 then
            ["Increase technical keywords to improve ATS (Applicant Tracking System) compatibility"]
          else [])
      ++ (if a.achievements_with_numbers = 0 then
            ["Add quantified achievements (percentages, dollar amounts, timeframes) to demonstrate impact"]
          else [])
      ++ (if !a.has_linkedin then
            ["Consider adding LinkedIn profile to showcase professional network"] else [])
      ++ (if !a.sections_found.contains ("Projects") then
            ["Add a projects section to showcase hands-on technical experience"] else [])
  let l := if l.isEmpty then
      l ++ ["Consider adding more specific examples of your technical accomplishments"]
    else l
  l.take 4

/-- The four section names of line 271.  Python builds
`set([...]) - set(sections_found)` and then takes `list(...)[:2]`; the set's
iteration order is interpreter-dependent, so declaration order is used here.
No theorem below depends on which two names are chosen. -/
def allSectionNames : List String := ["Experience", "Education", "Projects", "Skills"]

/-- `AICritic._generate_recommendations` (lines 256-282); `ts` is the
`datetime.now().strftime('%Y-%m-%d %H:%M:%S')` string of line 280. -/
def generateRecommendations (a : Signals) (ts : String) : List String :=
  let l :=
    (if 0 < a.missing_keywords.length then
       ["Consider adding these relevant keywords: "
          ++ String.intercalate (", ") a.missing_keywords]
     else [])
      ++ (if a.achievements_with_numbers < 2 then
            ["Add more metrics: \x27Improved performance by 25%\x27, \x27Managed team of 5\x27, \x27Completed project 2 weeks ahead of schedule\x27"]
          else [])
      ++ (if a.sections_found.length < 4 then
            (let ms := allSectionNames.filter (fun s => !a.sections_found.contains s)
             if ms ≠ [] then
               ["Consider adding these sections: " ++ String.intercalate (", ") (ms.take 2)]
             else [])
          else [])
      ++ ["Tailor keywords and examples to match specific job descriptions you\x27re applying for"]
      ++ ["Last analyzed: " ++ ts ++ " - re-analyze after making changes"]
  l.take 4

/-! ### `_dynamic_mock_analysis` / `analyze_resume` -/

/-- The `keyword_analysis` sub-dict of the result (lines 55-59). -/
structure KeywordAnalysis where
  technical_keywords : List String
  missing_keywords : List String
  keyword_density : String
deriving DecidableEq

/-- The `formatting_feedback` sub-dict (lines 60-64); the source key
`structure` is a Lean keyword, rendered `structureInfo`. -/
structure FormattingFeedback where
  structureInfo : String
  readability : String
  suggestions : List String
deriving DecidableEq

/-- The dict returned by `_dynamic_mock_analysis` (lines 51-66). -/
structure AnalysisResult where
  overall_score : Int
  strengths : List String
  areas_for_improvement : List String
  keyword_analysis : KeywordAnalysis
  formatting_feedback : FormattingFeedback
  recommendations : List String
deriving DecidableEq

/-- `AICritic._dynamic_mock_analysis` (lines 32-66).  The wall-clock inputs
are explicit: `r` is the seeded `random.randint(-5, 5)` draw and
`tsStrength` / `tsRec` the two `datetime.now()` strings. -/
def dynamicMockAnalysis (text : String) (r : Int) (tsStrength tsRec : String) :
    AnalysisResult :=
  let a := analyzeContent text
  { overall_score := calculateDynamicScore a r
    strengths := generateStrengths a tsStrength
    areas_for_improvement := generateImprovements a
    keyword_analysis :=
      { technical_keywords := a.found_keywords
        missing_keywords := a.missing_keywords
        keyword_density := a.keyword_density }
    formatting_feedback :=
      { structureInfo := a.structure_feedback
        readability := a.readability_feedback
        suggestions := a.format_suggestions }
    recommendations := generateRecommendations a tsRec }

/-- `AICritic.analyze_resume` (lines 25-30) with `self.use_mock = True` (the
constructor's fixed value): it dispatches unconditionally to
`_dynamic_mock_analysis`; there is no validation of `resume_text` and no
`industry` parameter. -/
def analyzeResume (resume_text : String) (r : Int) (tsStrength tsRec : String) :
    AnalysisResult :=
  dynamicMockAnalysis resume_text r tsStrength tsRec

/-! ### Helper lemmas about the scorer -/

theorem clamp60_95 (x : Int) : 60 ≤ max 60 (min 95 x) ∧ max 60 (min 95 x) ≤ 95 :=
  ⟨le_max_left 60 (min 95 x), max_le (by norm_num) (min_le_left 95 x)⟩

theorem overall_score_eq (text : String) (r : Int) (t1 t2 : String) :
    (analyzeResume text r t1 t2).overall_score = calculateDynamicScore (analyzeContent text) r := rfl

/-! ### The §4.4 canonical scorer, for comparison with the code's scorer -/

/-- Modelled from the spec: the canonical scoring formula of §4.4 — base 55,
independently capped adjustments, final clamp to `[5, 95]`.  Arguments are
the §4.3 signals the formula reads: present / missing required sections,
found keyword count, quantified achievements, unresolved JD-suggested
keywords, a repository/portfolio signal, and the (already capped, ≤ 0)
red-flag penalty. -/
def canonicalScore (present missing found ach unresolved : Nat) (repo : Bool)
    (redFlagPenalty : Int) : Int :=
  let v : Int := 55 + min (3 * (present : Int)) 12 + min (found : Int) 10
    + (if repo then 4 else 0) + min (2 * (ach : Int)) 6
    - min (3 * (missing : Int)) 9 - min (unresolved : Int) 5 + redFlagPenalty
  max 5 (min 95 v)

/-- The additive decomposition of the code's word-count block. -/
def wordCountAdj (wc : Nat) : Int :=
  if 250 ≤ wc ∧ wc ≤ 600 then 5 else if wc < 200 then -10 else if 800 < wc then -5 else 0

def contactAdj (e p l g : Bool) : Int :=
  (if e then 5 else 0) + (if p then 5 else 0) + (if l then 3 else 0) + (if g then 3 else 0)

def keywordAdj (k : Nat) : Int :=
  if 8 < k then 10 else if 4 < k then 5 else if k < 2 then -5 else 0

def sectionAdj (n : Nat) : Int :=
  if 4 ≤ n then 8 else if 3 ≤ n then 5 else if n < 2 then -10 else 0

def achievementAdj (n : Nat) : Int := if 2 < n then 8 else if 0 < n then 4 else -5

theorem scoreWordCount_eq (wc : Nat) (b : Int) : scoreWordCount wc b = b + wordCountAdj wc := by
  unfold scoreWordCount wordCountAdj; split_ifs <;> omega

theorem scoreEmail_eq (e : Bool) (b : Int) : scoreEmail e b = b + (if e then 5 else 0) := by
  unfold scoreEmail; split_ifs <;> omega

theorem scorePhone_eq (p : Bool) (b : Int) : scorePhone p b = b + (if p then 5 else 0) := by
  unfold scorePhone; split_ifs <;> omega

theorem scoreLinkedin_eq (l : Bool) (b : Int) : scoreLinkedin l b = b + (if l then 3 else 0) := by
  unfold scoreLinkedin; split_ifs <;> omega

theorem scoreGithub_eq (g : Bool) (b : Int) : scoreGithub g b = b + (if g then 3 else 0) := by
  unfold scoreGithub; split_ifs <;> omega

theorem scoreKeywords_eq (k : Nat) (b : Int) : scoreKeywords k b = b + keywordAdj k := by
  unfold scoreKeywords keywordAdj; split_ifs <;> omega

theorem scoreSections_eq (n : Nat) (b : Int) : scoreSections n b = b + sectionAdj n := by
  unfold scoreSections sectionAdj; split_ifs <;> omega

theorem scoreAchievements_eq (n : Nat) (b : Int) :
    scoreAchievements n b = b + achievementAdj n := by
  unfold scoreAchievements achievementAdj; split_ifs <;> omega

/-! ### List-length helpers for the feedback generators -/

theorem padStrengths_length : ∀ (n : Nat) (l : List String),
    min 4 (l.length + n) ≤ (padStrengths n l).length := by
  intro n
  induction n with
  | zero => intro l; rw [padStrengths]; omega
  | succ n ih =>
    intro l
    rw [padStrengths]
    by_cases hlt : l.length < 4
    · rw [if_pos hlt]
      have h := ih (l ++ [genericStrengths.getD (l.length % 4) ""])
      rw [List.length_append] at h
      simp only [List.length_cons, List.length_nil] at h
      omega
    · rw [if_neg hlt]
      omega

theorem take4_pad (l : List String) : ((padStrengths 4 l).take 4).length = 4 := by
  rw [List.length_take]
  have h := padStrengths_length 4 l
  omega

theorem generateStrengths_length (a : Signals) (ts : String) :
    (generateStrengths a ts).length = 4 :=
  take4_pad _

theorem take4_nonempty (l : List String) (h : l ≠ []) :
    1 ≤ (l.take 4).length ∧ (l.take 4).length ≤ 4 := by
  rw [List.length_take]
  have hp : 0 < l.length := List.length_pos.mpr h
  omega

theorem padIfEmpty_ne (b : List String) (f : String) :
    (if b.isEmpty then b ++ [f] else b) ≠ [] := by
  split
  · next h =>
    rw [List.isEmpty_iff] at h
    simp [h]
  · next h =>
    rw [List.isEmpty_iff] at h
    exact h

theorem generateImprovements_length (a : Signals) :
    1 ≤ (generateImprovements a).length ∧ (generateImprovements a).length ≤ 4 :=
  take4_nonempty _ (padIfEmpty_ne _ _)

theorem generateRecommendations_length (a : Signals) (ts : String) :
    1 ≤ (generateRecommendations a ts).length ∧ (generateRecommendations a ts).length ≤ 4 := by
  refine take4_nonempty _ ?_
  intro h
  have := congrArg List.length h
  simp [List.length_append] at this

theorem getFormatSuggestions_length (wc : Nat) (secs : List String) (ach : Nat) :
    1 ≤ (getFormatSuggestions wc secs ach).length ∧ (getFormatSuggestions wc secs ach).length ≤ 4 := by
  unfold getFormatSuggestions
  split_ifs <;> simp

/-! ### Claim theorems about the engine in `src/app/services/ai_critic.py` -/

/-- A concrete signal record on which the `random.randint(-5, 5)` draw is
visible through the clamp (base value 94 before the jitter). -/
def jitterProbe : Signals :=
  { word_count := 300, line_count := 10, has_email := true, has_phone := true
    has_linkedin := false, has_github := false
    found_keywords := ["Python", "Sql", "Git", "Docker", "Api"], missing_keywords := []
    keyword_density := "Needs Improvement", sections_found := ["Experience", "Education"]
    achievements_with_numbers := 1, structure_feedback := "", readability_feedback := ""
    format_suggestions := [] }

/-- C1: refuted on the code.  `_dynamic_mock_analysis` is a function of the
wall clock, not only of its inputs: the strengths list embeds the
`datetime.now()` string (line 205), so the same resume analysed at two
different times yields different results, and the score adds a
`random.randint(-5, 5)` draw seeded from `time.time()` (lines 36-38, 174),
so two different draws yield different scores for the same signals. -/
theorem mock_analysis_depends_on_clock :
    analyzeResume "python" 0 "2025-01-01 at 10:00" "t"
        ≠ analyzeResume "python" 0 "2025-01-02 at 10:00" "t" ∧
      calculateDynamicScore jitterProbe (-5) ≠ calculateDynamicScore jitterProbe 5 := by
  decide

/-- C2: for every resume text (in particular every non-empty one), every
jitter draw and every pair of timestamp strings, the overall score returned
by `analyze_resume` lies within `[5, 95]` (the code in fact clamps to the
tighter `[60, 95]`). -/
theorem overall_score_within_5_95 (text : String) (r : Int) (t1 t2 : String)
    (h : text ≠ "") :
    5 ≤ (analyzeResume text r t1 t2).overall_score ∧
      (analyzeResume text r t1 t2).overall_score ≤ 95 := by
  rw [overall_score_eq]
  unfold calculateDynamicScore
  exact ⟨le_trans (by norm_num) (le_max_left _ _), max_le (by norm_num) (min_le_left _ _)⟩

theorem overall_score_within_5_95_witness :
    ("x" : String) ≠ "" ∧
      (5 ≤ (analyzeResume "x" 0 "a" "b").overall_score ∧
        (analyzeResume "x" 0 "a" "b").overall_score ≤ 95) :=
  ⟨by decide, overall_score_within_5_95 "x" 0 "a" "b" (by decide)⟩

/-- C3: refuted on the code.  `analyze_resume` has no emptiness check: on
the empty and on a whitespace-only resume text it returns a normal analysis
record (score 60, four strengths) instead of a `ValidationError` outcome. -/
theorem blank_resume_returns_normal_result :
    ((analyzeResume "" 0 "ts" "tr").overall_score = 60 ∧
        (analyzeResume "" 0 "ts" "tr").strengths.length = 4) ∧
      ((analyzeResume "   " 0 "ts" "tr").overall_score = 60 ∧
        (analyzeResume "   " 0 "ts" "tr").strengths.length = 4) := by
  decide

/-- C4: refuted on the code.  Line 89 tests `keyword in text_lower`, a
substring test: on the text "javascript developer" the keyword `java` is
reported as found (title-cased `Java`) although it occurs only inside the
longer token `javascript`. -/
theorem substring_keyword_false_positive :
    (analyzeContent "javascript developer").found_keywords = ["Javascript", "Java"] := by
  decide

/-- C5 counterexample: the code's scorer is not the canonical §4.4 formula.
On the signals of the empty resume (no sections, no keywords, no contact
info, no achievements, no repository signal, no red flags, no job
description) the code returns 60 while the canonical formula (base 55, -3
per missing section capped at -9, clamp to `[5, 95]`) yields 46. -/
theorem scorer_differs_from_canonical_formula :
    calculateDynamicScore (analyzeContent "") 0 = 60 ∧
      canonicalScore 0 4 0 0 0 false 0 = 46 ∧
      calculateDynamicScore (analyzeContent "") 0 ≠ canonicalScore 0 4 0 0 0 false 0 := by
  decide

/-- C5 (amended): the scorer actually starts from base 70; adds +5 / -10 /
-5 for a word count in [250, 600] / below 200 / above 800; +5 for an email,
+5 for a phone number, +3 for LinkedIn, +3 for GitHub; +10 / +5 / -5 for
more than 8 / more than 4 / fewer than 2 found keywords; +8 / +5 / -10 for
at least 4 / exactly 3 / fewer than 2 sections; +8 / +4 / -5 for more than
2 / at least 1 / no quantified achievements; then adds the seeded random
jitter and clamps the sum to `[60, 95]`. -/
theorem scorer_closed_form (a : Signals) (r : Int) :
    calculateDynamicScore a r =
      max 60 (min 95 (70 + wordCountAdj a.word_count
        + contactAdj a.has_email a.has_phone a.has_linkedin a.has_github
        + keywordAdj a.found_keywords.length + sectionAdj a.sections_found.length
        + achievementAdj a.achievements_with_numbers + r)) := by
  unfold calculateDynamicScore contactAdj
  rw [scoreWordCount_eq, scoreEmail_eq, scorePhone_eq, scoreLinkedin_eq, scoreGithub_eq,
    scoreKeywords_eq, scoreSections_eq, scoreAchievements_eq]
  congr 1
  congr 1
  ring

/-- C9: each of the four feedback lists (strengths, improvements,
recommendations, formatting suggestions) contains at least 1 and at most 4
items, for every signal record and every timestamp string. -/
theorem feedback_lists_bounded (a : Signals) (tsS tsR : String) (wc ach : Nat)
    (secs : List String) :
    (1 ≤ (generateStrengths a tsS).length ∧ (generateStrengths a tsS).length ≤ 4) ∧
      (1 ≤ (generateImprovements a).length ∧ (generateImprovements a).length ≤ 4) ∧
      (1 ≤ (generateRecommendations a tsR).length ∧
        (generateRecommendations a tsR).length ≤ 4) ∧
      (1 ≤ (getFormatSuggestions wc secs ach).length ∧
        (getFormatSuggestions wc secs ach).length ≤ 4) := by
  have hs := generateStrengths_length a tsS
  have hi := generateImprovements_length a
  have hr := generateRecommendations_length a tsR
  have hf := getFormatSuggestions_length wc secs ach
  exact ⟨⟨by omega, by omega⟩, hi, hr, hf⟩

/-- C10: the scorer's clamp `max(60, min(95, base_score))` (line 176) keeps
every returned score in `[60, 95]` — a strictly tighter lower bound than the
spec's 5. -/
theorem score_clamped_60_95 (text : String) (r : Int) (t1 t2 : String) :
    60 ≤ (analyzeResume text r t1 t2).overall_score ∧
      (analyzeResume text r t1 t2).overall_score ≤ 95 := by
  rw [overall_score_eq]
  unfold calculateDynamicScore
  exact clamp60_95 _

/-! ## Part 2 — the canonical engine of the spec

`src/app/main.py` (version 1.7.0) calls
`analyze_resume(extracted_text, job_description=..., industry=...)` and
reads `analysis["industry"]`, `analysis["keyword_analysis"]["industry_keywords"]`,
`["suggested_keywords"]`, `["keyword_coverage"]` and `["note"]` — an engine
with industry detection, validation and keyword coverage.  The engine file
implementing that interface is not in the source tree (the `ai_critic.py`
under `src/app/services` is the older iteration embedded in Part 1, which
accepts no `industry` argument and returns none of those fields).  The
definitions below model the missing engine from the spec (§3, §4.1-§4.6,
§6, §7); the cue-rule table and the per-industry keyword banks are curated
configuration data also absent from the tree, so they enter as parameters
(`rules`, `banks`). -/

/-- Modelled from the spec: the error taxonomy of §7 that the missing
orchestrator surfaces to its caller. -/
inductive CriticError where
  | validationError
  | invalidIndustryError
deriving DecidableEq

/-- Modelled from the spec: a per-industry keyword bank (§3). -/
structure KeywordBank where
  required_sections : List String
  hard_skills : List String
  soft_skills : List String
  extras : List String
deriving DecidableEq

/-- Modelled from the spec: the fallback bank — empty skill sets, the same
three required sections (§3). -/
def fallbackBank : KeywordBank :=
  { required_sections := ["Experience", "Skills", "Education"]
    hard_skills := [], soft_skills := [], extras := [] }

/-- Modelled from the spec: the registry keys of §4.1, matching the
industry selector of the upload form in `src/app/main.py`. -/
def registryKeys : List String :=
  ["technology", "healthcare", "education", "sales_marketing",
   "finance_accounting", "operations_hr", "arts_media", "service_retail"]

/-- Executable lower-casing of a string (Python `str.lower()` on the ASCII
identifiers involved; `String.toLower` itself does not reduce in the
kernel). -/
def strLower (s : String) : String := String.mk (s.data.map lowerChar)

/-- The blank-input test of §4.6: empty or whitespace-only text. -/
def strBlank (s : String) : Bool := s.data.all pyWhitespace

/-- Modelled from the spec: `lookup(industry)` returns the matching bank or
the fallback bank if the key is absent (§4.1). -/
def lookupBank (banks : List (String × KeywordBank)) (industry : String) : KeywordBank :=
  ((banks.find? (fun p => p.1 == industry)).map Prod.snd).getD fallbackBank

/-- Modelled from the spec: whole-word / whole-phrase occurrence (§4.2,
glossary) — the phrase occurs in the text with no word character
immediately before or after it.  `prevOk` records that the character before
the current position is not a word character (true at the start). -/
def wholeWordFrom (phrase : List Char) : Bool → List Char → Bool
  | _, [] => false
  | prevOk, c :: t =>
    (prevOk && listPrefixEq phrase (c :: t)
        && !optIsWord ((c :: t).drop phrase.length).head?)
      || wholeWordFrom phrase (!isWordChar c) t

def wholeWordOccurs (phrase text : String) : Bool :=
  let p := phrase.data.map lowerChar
  !p.isEmpty && wholeWordFrom p true (text.data.map lowerChar)

/-- Modelled from the spec: the number of cues of one detection rule that
match the (lower-cased) text (§4.2). -/
def cueMatches (cues : List String) (t : String) : Nat :=
  (cues.filter (fun c => wholeWordOccurs c t)).length

/-- First label reaching the maximal score, in rule-declaration order
(§4.2 tie-break); an empty rule list scores 0 for the sentinel. -/
def bestLabel (scored : List (String × Nat)) : String × Nat :=
  scored.foldl (fun acc p => if acc.2 < p.2 then p else acc) ("unknown", 0)

/-- Modelled from the spec: `detect(text, job_description, forced)` (§4.2).
A validated forced industry bypasses voting (the orchestrator has already
rejected unknown forced values, §4.6); otherwise each rule's cues are
counted against the concatenated text and the best label is returned unless
its score is below the threshold of 2 matches, in which case the sentinel
`unknown` is returned. -/
def detect (rules : List (String × List String)) (text jd : String)
    (forced : String) : String :=
  if forced ≠ "" then strLower forced
  else
    let t := text ++ " " ++ jd
    let best := bestLabel (rules.map (fun p => (p.1, cueMatches p.2 t)))
    if best.2 < 2 then "unknown" else best.1

/-- Modelled from the spec: the §4.3 tokenizer — tokens start with a letter
and continue with letters, digits or the characters plus, minus, slash,
ampersand, dot, hash; case-folded. -/
def specTokenChar (c : Char) : Bool :=
  c.isAlpha || c.isDigit || c == '+' || c == '-' || c == '/' || c == '&' || c == '.' || c == '#'

def specTokensAux : Nat → List Char → List String
  | 0, _ => []
  | _, [] => []
  | fuel + 1, c :: t =>
    if c.isAlpha then
      String.mk (c :: t.takeWhile specTokenChar) :: specTokensAux fuel (t.dropWhile specTokenChar)
    else specTokensAux fuel t

def specTokens (text : String) : List String :=
  specTokensAux text.length (text.data.map lowerChar)

/-- Modelled from the spec: a bank term is present when its lower-cased
form is a member of the token set; multi-word terms are matched as whole
phrases in the text (§4.3). -/
def termPresent (term : String) (toks : List String) (text : String) : Bool :=
  if term.data.any (fun c => c == ' ') then wholeWordOccurs term text
  else toks.contains (strLower term)

def bankTerms (b : KeywordBank) : List String :=
  b.hard_skills ++ b.soft_skills ++ b.extras

/-- Modelled from the spec: quantified achievements (§4.3) — digit runs
forming a percentage, a currency amount, or a multi-digit numeric token.
`prev` is the previous character (to spot run starts and `$`). -/
def specAchAux : Nat → Option Char → List Char → Nat
  | 0, _, _ => 0
  | _, _, [] => 0
  | fuel + 1, prev, c :: t =>
    if c.isDigit && !(prev.map Char.isDigit).getD false then
      let d := 1 + digitRun t
      let hit := ((c :: t).get? d == some '%') || (prev == some '$') || decide (2 ≤ d)
      (if hit then 1 else 0) + specAchAux fuel (some c) t
    else specAchAux fuel (some c) t

def specAchievements (text : String) : Nat :=
  specAchAux text.length none text.data

/-- Modelled from the spec: the repository/portfolio signal (§4.4) — a
token among github / portfolio / repo / repository / project / projects
(an explicit code-hosting URL also produces such a token). -/
def repoSignal (toks : List String) : Bool :=
  ["github", "portfolio", "repo", "repository", "project", "projects"].any toks.contains

/-- Lines that are non-blank after stripping. -/
def nonBlankLines (text : String) : Nat := countLines text.data false

/-- Lines whose first non-whitespace character is a bullet marker. -/
def bulletLine (l : List Char) : Bool :=
  match l.dropWhile pyWhitespace with
  | [] => false
  | c :: _ => c == '-' || c == '*' || c == '•'

def bulletLines (text : String) : Nat :=
  ((text.data.splitOn '\n').filter bulletLine).length

/-- Modelled from the spec: the red-flag penalty (§4.3): `-8` per distinct
unprofessional-tone pattern, `-10` for an unprofessional email local part,
`-10` for an under-detailed resume, `-8` for fewer than 3 bulleted lines,
the running total clamped to `-30`.  The slang catalogue and the
unprofessional-email substrings are curated configuration data absent from
the tree; they enter as `slangHits` (the number of distinct catalogue
patterns that matched) and `unprofEmail`.  The minimum-length threshold is
not fixed by the spec; 100 tokens is used. -/
def redFlagPenalty (slangHits : Nat) (unprofEmail : Bool) (tokenCount bullets : Nat) : Int :=
  let total : Int := -8 * (slangHits : Int) + (if unprofEmail then -10 else 0)
    + (if tokenCount < 100 then -10 else 0) + (if bullets < 3 then -8 else 0)
  max total (-30)

/-- Modelled from the spec: the signals of §4.3 that the scorer and the
result record read. -/
structure SpecSignals where
  found_terms : List String
  sections_present : List String
  sections_missing : List String
  achievements : Nat
  repo_signal : Bool
  jd_universe : List String
  suggested : List String
  red_flag_penalty : Int
  has_year : Bool
  nonblank_lines : Nat
  bullet_lines : Nat
deriving DecidableEq

/-- A run of exactly four digits somewhere in the text (a year, §4.5). -/
def hasFourDigitRunAux : Nat → Option Char → List Char → Bool
  | 0, _, _ => false
  | _, _, [] => false
  | fuel + 1, prev, c :: t =>
    (c.isDigit && !(prev.map Char.isDigit).getD false && decide (1 + digitRun t = 4))
      || hasFourDigitRunAux fuel (some c) t

def hasFourDigitRun (text : String) : Bool :=
  hasFourDigitRunAux text.length none text.data

/-- Modelled from the spec: `analyze(text, bank, job_description)` (§4.3).
With no job description the suggested list is the empty choice the spec
allows (the adjacency table is curated data absent from the tree). -/
def specAnalyze (bank : KeywordBank) (text : String) (jd : Option String) : SpecSignals :=
  let toks := specTokens text
  let found := (bankTerms bank).filter (fun t => termPresent t toks text)
  let jdU := match jd with
    | none => []
    | some j => (bankTerms bank).filter (fun t => termPresent t (specTokens j) j)
  { found_terms := found
    sections_present := bank.required_sections.filter (fun s => wholeWordOccurs s text)
    sections_missing := bank.required_sections.filter (fun s => !wholeWordOccurs s text)
    achievements := specAchievements text
    repo_signal := repoSignal toks
    jd_universe := jdU
    suggested := jdU.filter (fun t => !found.contains t)
    red_flag_penalty := redFlagPenalty 0 false toks.length (bulletLines text)
    has_year := hasFourDigitRun text
    nonblank_lines := nonBlankLines text
    bullet_lines := bulletLines text }

/-- Modelled from the spec: the coverage string of §6 — a percentage with
counts when a non-empty comparison universe was derived from the job
description, the sentinel `—` otherwise; never computed against an empty
universe. -/
def coverageString (jd : Option String) (universeSize found : Nat) : String :=
  match jd with
  | none => "—"
  | some _ =>
    if universeSize = 0 then "—"
    else toString (100 * found / universeSize) ++ "% (" ++ toString found ++ "/"
      ++ toString universeSize ++ ")"

/-- Modelled from the spec: the `keyword_analysis` part of the result
record (§3, §6), as read by `src/app/main.py`. -/
structure SpecKeywordAnalysis where
  industry_keywords : List String
  suggested_keywords : List String
  keyword_coverage : String
  note : Option String
deriving DecidableEq

/-- Modelled from the spec: the formatting feedback of §4.5. -/
structure SpecFormatting where
  structureInfo : String
  readability : String
  suggestions : List String
deriving DecidableEq

/-- Modelled from the spec: the `AnalysisResult` record of §3. -/
structure SpecResult where
  industry : String
  overall_score : Int
  keyword_analysis : SpecKeywordAnalysis
  strengths : List String
  areas_for_improvement : List String
  formatting_feedback : SpecFormatting
  recommendations : List String
deriving DecidableEq

/-- Take at most 4 items; if the rule sequence produced none, use the
fallback sentence (§4.5). -/
def boundedList (l : List String) (fallback : String) : List String :=
  (if l.isEmpty then [fallback] else l).take 4

/-- Modelled from the spec: strengths triggers of §4.5, in order. -/
def specStrengths (sig : SpecSignals) : List String :=
  boundedList
    ((if sig.sections_present ≠ [] then
        ["Clear sections present: " ++ String.intercalate (", ") sig.sections_present]
      else [])
      ++ (if sig.found_terms ≠ [] then
            ["Relevant keywords found: " ++ String.intercalate (", ") sig.found_terms]
          else [])
      ++ (if sig.has_year then ["Dated entries make your timeline easy to reconstruct"]
          else [])
      ++ (if 0 < sig.achievements then ["Quantified achievements demonstrate impact"]
          else []))
    ("Readable baseline resume")

/-- Modelled from the spec: improvements triggers of §4.5, in order. -/
def specImprovements (sig : SpecSignals) (industry : String) : List String :=
  boundedList
    ((if sig.sections_missing ≠ [] then
        ["Add the missing sections: " ++ String.intercalate (", ") sig.sections_missing]
      else [])
      ++ (if sig.suggested ≠ [] then
            ["Consider adding keywords: " ++ String.intercalate (", ") sig.suggested]
          else [])
      ++ (if industry = "technology" ∧ !sig.repo_signal then
            ["Add a link to a code repository or portfolio"]
          else [])
      ++ (if sig.achievements < 2 then
            ["Quantify more of your achievements with numbers"]
          else []))
    ("Tailor the resume to the specific role")

/-- Modelled from the spec: formatting feedback of §4.5. -/
def specFormatting (sig : SpecSignals) : SpecFormatting :=
  { structureInfo :=
      if 20 < sig.nonblank_lines then "Resume appears mostly structured"
      else "Consider expanding the resume with more detail"
    readability :=
      if 5 ≤ sig.bullet_lines then "Resume has bullet points"
      else "Add bullet points to improve scannability"
    suggestions :=
      ["Lead bullet points with action verbs",
       "Keep verb tense consistent",
       "Use one date format throughout"] }

/-- Modelled from the spec: per-industry advice keyed by detected industry,
with an `unknown` fallback (§4.5). -/
def industryAdvice (industry : String) : String :=
  if industry = "technology" then "Highlight shipped projects and the stack used"
  else if industry = "healthcare" then "List certifications and patient-care outcomes"
  else if industry = "education" then "Describe curricula and learner outcomes"
  else if industry = "sales_marketing" then "Lead with revenue and pipeline numbers"
  else if industry = "finance_accounting" then "Name the standards and tools you work with"
  else if industry = "operations_hr" then "Show process improvements and their measures"
  else if industry = "arts_media" then "Link a portfolio of published work"
  else if industry = "service_retail" then "Emphasize customer-facing results and reliability"
  else "Tailor the resume to the posting you target"

/-- Modelled from the spec: recommendations of §4.5. -/
def specRecommendations (sig : SpecSignals) (industry : String) : List String :=
  boundedList
    ([industryAdvice industry]
      ++ (if industry = "technology" ∧ !sig.repo_signal then
            ["Add a repository link so reviewers can read your code"]
          else [])
      ++ (if sig.achievements < 2 ∧ !(sig.sections_missing ≠ []) then
            ["Add measurable results to your bullet points"]
          else []))
    ("Review the resume against the posting before applying")

/-- Modelled from the spec: the orchestrator `analyze_resume(resume_text,
job_description?, industry?)` of §4.6 — the public engine entry point that
`src/app/main.py` invokes but that is absent from the tree.  Validation
first: a blank resume fails with `ValidationError`; a non-empty industry
that is not a registry key fails with `InvalidIndustryError`.  Otherwise
Detector → Analyzer → Scorer → Feedback, assembled into the §3 record.
The empty industry string is the auto-detect sentinel the caller sends. -/
def analyzeResumeSpec (rules : List (String × List String))
    (banks : List (String × KeywordBank)) (resume_text : String)
    (job_description : Option String) (industry : String) :
    Except CriticError SpecResult :=
  if strBlank resume_text then .error .validationError
  else if industry ≠ "" ∧ strLower industry ∉ banks.map Prod.fst then
    .error .invalidIndustryError
  else
    let ind := detect rules resume_text (job_description.getD "") industry
    let bank := lookupBank banks ind
    let sig := specAnalyze bank resume_text job_description
    let score := canonicalScore sig.sections_present.length sig.sections_missing.length
      sig.found_terms.length sig.achievements sig.suggested.length sig.repo_signal
      sig.red_flag_penalty
    .ok
      { industry := ind
        overall_score := score
        keyword_analysis :=
          { industry_keywords := sig.found_terms
            suggested_keywords := sig.suggested
            keyword_coverage := coverageString job_description sig.jd_universe.length
              (sig.jd_universe.length - sig.suggested.length)
            note := match job_description with
              | none => some ("Paste a job description to get keyword coverage")
              | some _ => none }
        strengths := specStrengths sig
        areas_for_improvement := specImprovements sig ind
        formatting_feedback := specFormatting sig
        recommendations := specRecommendations sig ind }

/-- Modelled from the spec: a concrete registry table over the §4.1 keys,
used by the witnesses below.  The curated bank contents are configuration
data not in the tree; the theorems quantify over arbitrary tables, so only
the keys matter here and each entry carries the default sections. -/
def specBanks : List (String × KeywordBank) := registryKeys.map (fun k => (k, fallbackBank))

/-! ### Claim theorems about the modelled canonical engine -/

theorem bestLabel_lt (scored : List (String × Nat)) (h : ∀ p ∈ scored, p.2 < 2) :
    (bestLabel scored).2 < 2 := by
  unfold bestLabel
  have key : ∀ (l : List (String × Nat)) (acc : String × Nat), acc.2 < 2 →
      (∀ p ∈ l, p.2 < 2) →
      (l.foldl (fun acc p => if acc.2 < p.2 then p else acc) acc).2 < 2 := by
    intro l
    induction l with
    | nil => intro acc ha _; simpa using ha
    | cons p t ih =>
      intro acc ha hl
      rw [List.foldl_cons]
      apply ih
      · split
        · exact hl p (List.mem_cons_self p t)
        · exact ha
      · intro q hq
        exact hl q (List.mem_cons_of_mem p hq)
  exact key scored ("unknown", 0) (by norm_num) h

/-- C6: the modelled orchestrator rejects a non-empty industry value that is
not a registry key with `InvalidIndustryError`; it is never silently
accepted or ignored (spec §4.6, §7). -/
theorem invalid_industry_rejected (rules : List (String × List String))
    (banks : List (String × KeywordBank)) (text : String) (jd : Option String)
    (ind : String) (h1 : strBlank text = false) (h2 : ind ≠ "")
    (h3 : strLower ind ∉ banks.map Prod.fst) :
    analyzeResumeSpec rules banks text jd ind = .error .invalidIndustryError := by
  unfold analyzeResumeSpec
  rw [if_neg (by simp [h1]), if_pos ⟨h2, h3⟩]

theorem invalid_industry_rejected_witness :
    ((strBlank "experienced nurse" = false) ∧ ("astrology" : String) ≠ "" ∧
        strLower "astrology" ∉ specBanks.map Prod.fst) ∧
      analyzeResumeSpec [] specBanks "experienced nurse" none "astrology"
        = .error .invalidIndustryError :=
  ⟨⟨by decide, by decide, by decide⟩,
    invalid_industry_rejected [] specBanks "experienced nurse" none "astrology"
      (by decide) (by decide) (by decide)⟩

/-- C7: with no forced industry, whenever every detection rule has fewer
than 2 matching cues, `detect` returns the sentinel `unknown` and the
orchestrator's result record carries that industry (spec §4.2). -/
theorem detector_below_threshold_unknown (rules : List (String × List String))
    (banks : List (String × KeywordBank)) (text jd : String)
    (h1 : strBlank text = false)
    (h2 : ∀ p ∈ rules, cueMatches p.2 (text ++ " " ++ jd) < 2) :
    detect rules text jd "" = "unknown" ∧
      ∃ res, analyzeResumeSpec rules banks text (some jd) "" = .ok res ∧
        res.industry = "unknown" := by
  have hb := bestLabel_lt (rules.map (fun p => (p.1, cueMatches p.2 (text ++ " " ++ jd))))
    (by
      intro p hp
      obtain ⟨q, hq, rfl⟩ := List.mem_map.mp hp
      exact h2 q hq)
  have hdet : detect rules text jd "" = "unknown" := by
    simp only [detect]
    rw [if_neg (fun hc => hc rfl), if_pos hb]
  refine ⟨hdet, ?_⟩
  unfold analyzeResumeSpec
  rw [if_neg (by simp [h1]), if_neg (fun hc => hc.1 rfl)]
  exact ⟨_, rfl, hdet⟩

theorem detector_below_threshold_unknown_witness :
    ((strBlank "cashier resume with experience" = false) ∧
        (∀ p ∈ ([("technology", ["python", "api"])] : List (String × List String)),
          cueMatches p.2 ("cashier resume with experience" ++ " " ++ "") < 2)) ∧
      (detect [("technology", ["python", "api"])] "cashier resume with experience" "" ""
          = "unknown" ∧
        ∃ res, analyzeResumeSpec [("technology", ["python", "api"])] specBanks
            "cashier resume with experience" (some "") "" = .ok res ∧
          res.industry = "unknown") :=
  ⟨⟨by decide, by decide⟩,
    detector_below_threshold_unknown [("technology", ["python", "api"])] specBanks
      "cashier resume with experience" "" (by decide) (by decide)⟩

/-- C8: when no job description is supplied, the coverage field of the
result is the sentinel `—` (with an explanatory note); no percentage is
computed against an empty comparison universe (spec §6). -/
theorem no_jd_coverage_sentinel (rules : List (String × List String))
    (banks : List (String × KeywordBank)) (text ind : String)
    (h1 : strBlank text = false)
    (h2 : ind = "" ∨ strLower ind ∈ banks.map Prod.fst) :
    ∃ res, analyzeResumeSpec rules banks text none ind = .ok res ∧
      res.keyword_analysis.keyword_coverage = "—" := by
  have hno : ¬(ind ≠ "" ∧ strLower ind ∉ banks.map Prod.fst) := by
    rintro ⟨hne, hnm⟩
    rcases h2 with h | h
    · exact hne h
    · exact hnm h
  unfold analyzeResumeSpec
  rw [if_neg (by simp [h1]), if_neg hno]
  exact ⟨_, rfl, rfl⟩

theorem no_jd_coverage_sentinel_witness :
    ((strBlank "software engineer" = false) ∧
        (("technology" : String) = "" ∨
          strLower "technology" ∈ specBanks.map Prod.fst)) ∧
      ∃ res, analyzeResumeSpec [] specBanks "software engineer" none "technology"
          = .ok res ∧ res.keyword_analysis.keyword_coverage = "—" :=
  ⟨⟨by decide, by decide⟩,
    no_jd_coverage_sentinel [] specBanks "software engineer" "technology"
      (by decide) (by decide)⟩
